import Mathlib

/-!
Shallow embedding of the ContinuousCo feedback-form application
(`app/app.py`, `app/database.py`): relational rows are Lean structures,
the database is a record of row lists with per-table autoincrement
counters and a logical clock for `created_at` timestamps, and each HTTP
handler becomes a pure function from a database state (plus the request's
inputs and the external collaborators, passed as parameters) to a result
carrying the new state.  SQL `SELECT ... WHERE` is list filtering,
`fetchone` is `List.find?`, `ORDER BY` is `List.insertionSort`, and a
transaction is the function returning either the fully updated state or
an error with the old state untouched.
-/

namespace ContinuousCo

/-- A row of the `users` table (`database.py`): autoincrement id, unique
email, salted password hash. -/
structure UserRow where
  id : Nat
  email : String
  password_hash : String
  deriving Repr, DecidableEq

/-- A row of the `forms` table as used by `app.py`: autoincrement id, the
short URL-safe public token `public_id`, owning user id, title and
description. -/
structure FormRow where
  id : Nat
  public_id : String
  owner_id : Nat
  title : String
  description : String
  deriving Repr, DecidableEq

/-- A row of the `questions` table: id, owning form id, text, 1-based
position. -/
structure QuestionRow where
  id : Nat
  form_id : Nat
  question_text : String
  position : Nat
  deriving Repr, DecidableEq

/-- A row of the `answers` table: id, denormalized form id, question id,
free text, creation timestamp (modelled as a logical clock value). -/
structure AnswerRow where
  id : Nat
  form_id : Nat
  question_id : Nat
  answer_text : String
  created_at : Nat
  deriving Repr, DecidableEq

/-- A row of the `ai_summaries` table: id, form id, summary text. -/
structure SummaryRow where
  id : Nat
  form_id : Nat
  summary_text : String
  deriving Repr, DecidableEq

/-- The database state: the five tables, per-table autoincrement
counters, and a logical clock used to stamp `created_at` on inserted
answer rows. -/
structure DB where
  users : List UserRow := []
  forms : List FormRow := []
  questions : List QuestionRow := []
  answers : List AnswerRow := []
  ai_summaries : List SummaryRow := []
  next_user_id : Nat := 1
  next_form_id : Nat := 1
  next_question_id : Nat := 1
  next_answer_id : Nat := 1
  next_summary_id : Nat := 1
  clock : Nat := 0
  deriving Repr, DecidableEq

/-- Python `str.strip()`: drop leading and trailing whitespace. -/
def strip (s : String) : String :=
  ⟨((s.data.dropWhile Char.isWhitespace).reverse.dropWhile
      Char.isWhitespace).reverse⟩

/-- Python `str.lower()` on the ASCII range used by emails. -/
def lower (s : String) : String :=
  ⟨s.data.map Char.toLower⟩

/-- `email.strip().lower()` as done by both `login` and `register`. -/
def normalize_email (s : String) : String := lower (strip s)

/-- `SELECT * FROM users WHERE email = ?` followed by `fetchone()`. -/
def find_user_by_email (db : DB) (email : String) : Option UserRow :=
  db.users.find? (fun u => u.email == email)

/-- Outcome of the `login` POST handler: a session holding the user's id
and stored email, or the generic error message rendered on the login
page. -/
inductive LoginResult where
  | success (user_id : Nat) (email : String)
  | failure (error : String)
  deriving Repr, DecidableEq

/-- The `login` POST handler (`app.py`).  `chk` models
`werkzeug.check_password_hash`.  Looks up the normalized email, verifies
the hash, and on success establishes the session; on any failure renders
the single generic message. -/
def login (chk : String → String → Bool) (db : DB) (email password : String) :
    LoginResult :=
  let e := normalize_email email
  match find_user_by_email db e with
  | some u =>
      if chk u.password_hash password then
        LoginResult.success u.id u.email
      else
        LoginResult.failure "Invalid email or password."
  | none => LoginResult.failure "Invalid email or password."

/-- Outcome of the `register` POST handler. -/
inductive RegisterResult where
  | validationError (error : String)
  | duplicateError (error : String)
  | success (db : DB)
  deriving Repr, DecidableEq

/-- The `register` POST handler (`app.py`).  `gen` models
`werkzeug.generate_password_hash`.  The code attempts the INSERT and
catches any exception as "Email already registered."; the only
constraint on `users` is `email TEXT UNIQUE NOT NULL`, so the insert
fails exactly when the normalized email is already present. -/
def register (gen : String → String) (db : DB) (email password : String) :
    RegisterResult :=
  let e := normalize_email email
  if e = "" ∨ password = "" then
    RegisterResult.validationError "Email and password required."
  else if (find_user_by_email db e).isSome then
    RegisterResult.duplicateError "Email already registered."
  else
    RegisterResult.success
      { db with
        users := db.users ++ [⟨db.next_user_id, e, gen password⟩],
        next_user_id := db.next_user_id + 1 }

/-- Modelled from the spec: the `forms.public_id` column carries a
UNIQUE constraint ("a Form's public token is globally unique"), so the
INSERT inside `create_form` raises exactly when the freshly generated
token equals the `public_id` of an existing form row.  The migration
that adds this column (referred to by the `init_db` comment "apply
migrations") is not among the source files; only the retry loop that
relies on it is. -/
def token_collides (db : DB) (token : String) : Bool :=
  db.forms.any (fun f => f.public_id == token)

/-- The `for _ in range(10): ... break / except: continue / else: raise`
loop of `create_form` (`app.py`): `gen` models `generate_public_id`
(`secrets.token_urlsafe(6)`), `gen i` being the token produced by the
i-th call.  Returns the index of the first generated token whose INSERT
succeeds, or `none` when all attempts of the bounded loop fail. -/
def try_insert_form (db : DB) (gen : Nat → String) : Nat → Nat → Option Nat
  | 0, _ => none
  | fuel + 1, i =>
      if token_collides db (gen i) then
        try_insert_form db gen fuel (i + 1)
      else
        some i

/-- Outcome of the `create_form` POST handler. -/
inductive CreateFormResult where
  | validationError (error : String)
  | tokenExhausted
  | success (db : DB) (form_id : Nat) (public_id : String)
  deriving Repr, DecidableEq

/-- The `create_form` POST handler (`app.py`): trims title and
description, trims and drops blank question texts, validates, runs the
bounded token-retry loop, and in one transaction inserts the form row
and one question row per kept text with 1-based positions in submitted
order.  `RuntimeError` on token exhaustion leaves the database unchanged
(the connection closes without commit). -/
def create_form (db : DB) (owner_id : Nat) (title description : String)
    (raw_questions : List String) (gen : Nat → String) : CreateFormResult :=
  let t := strip title
  let d := strip description
  let qs := (raw_questions.map strip).filter (fun q => q ≠ "")
  if t = "" then
    CreateFormResult.validationError "Title is required."
  else if qs.length < 1 then
    CreateFormResult.validationError "You must add at least 1 question."
  else
    match try_insert_form db gen 10 0 with
    | none => CreateFormResult.tokenExhausted
    | some i =>
        let fid := db.next_form_id
        let form : FormRow := ⟨fid, gen i, owner_id, t, d⟩
        let newQs := qs.enum.map (fun p =>
          QuestionRow.mk (db.next_question_id + p.1) fid p.2 (p.1 + 1))
        CreateFormResult.success
          { db with
            forms := db.forms ++ [form],
            questions := db.questions ++ newQs,
            next_form_id := fid + 1,
            next_question_id := db.next_question_id + newQs.length }
          fid (gen i)

/-- `SELECT * FROM forms WHERE public_id = ?` + `fetchone()`
(anonymous lookup in `form_page`). -/
def get_by_public_token (db : DB) (token : String) : Option FormRow :=
  db.forms.find? (fun f => f.public_id == token)

/-- `SELECT * FROM forms WHERE id = ? AND owner_id = ?` + `fetchone()`:
the owner-scoped lookup used by `form_results`, `generate_summary` and
`delete_form`. -/
def get_owned (db : DB) (form_id owner_id : Nat) : Option FormRow :=
  db.forms.find? (fun f => f.id == form_id && f.owner_id == owner_id)

/-- The `ORDER BY position ASC` comparison on question rows. -/
def position_le (a b : QuestionRow) : Prop :=
  a.position ≤ b.position

instance : DecidableRel position_le := fun a b => by
  unfold position_le
  infer_instance

instance : IsTotal QuestionRow position_le :=
  ⟨by intro a b; unfold position_le; omega⟩

instance : IsTrans QuestionRow position_le :=
  ⟨by intro a b c; unfold position_le; omega⟩

/-- `SELECT * FROM questions WHERE form_id = ? ORDER BY position ASC`. -/
def questions_of_form (db : DB) (fid : Nat) : List QuestionRow :=
  (db.questions.filter (fun q => q.form_id == fid)).insertionSort position_le

/-- `request.form.get("q_" + str(q["id"]), "").strip()`: the submitted
request body is an association list from field name to value; the first
value under the key is read, defaulting to the empty string, then
trimmed. -/
def form_answer_value (req : List (String × String)) (qid : Nat) : String :=
  strip (((req.find? (fun kv => kv.1 == "q_" ++ toString qid)).map
    Prod.snd).getD "")

/-- The POST loop of `form_page`: for each question of the form (in
position order), insert one answer row when the trimmed submitted value
is non-blank, stamping the autoincrement id and the creation clock.
Returns the updated database and the inserted rows in loop order. -/
def insert_answers (fid : Nat) (req : List (String × String)) :
    List QuestionRow → DB → DB × List AnswerRow
  | [], db => (db, [])
  | q :: qs, db =>
      let a := form_answer_value req q.id
      if a = "" then
        insert_answers fid req qs db
      else
        let row : AnswerRow := ⟨db.next_answer_id, fid, q.id, a, db.clock⟩
        let db1 : DB :=
          { db with
            answers := db.answers ++ [row],
            next_answer_id := db.next_answer_id + 1,
            clock := db.clock + 1 }
        let r := insert_answers fid req qs db1
        (r.1, row :: r.2)

/-- Outcome of a POST to `form_page`: 404 on unknown token, otherwise
the thank-you page together with the committed state and the rows
inserted by this submission. -/
inductive SubmitResult where
  | notFound
  | thankYou (db : DB) (inserted : List AnswerRow) (form : FormRow)
  deriving Repr, DecidableEq

/-- The `form_page` POST handler (`app.py`): resolves the form by its
public token (404 when unknown), fetches its questions ordered by
position, inserts one answer row per question with a non-blank trimmed
submitted value, commits everything together, and always renders the
thank-you page. -/
def form_page_post (db : DB) (token : String)
    (req : List (String × String)) : SubmitResult :=
  match get_by_public_token db token with
  | none => SubmitResult.notFound
  | some form =>
      let qs := questions_of_form db form.id
      let r := insert_answers form.id req qs db
      SubmitResult.thankYou r.1 r.2 form

/-- Outcome of the `delete_form` POST handler. -/
inductive DeleteResult where
  | notFound
  | deleted (db : DB)
  deriving Repr, DecidableEq

/-- The `delete_form` POST handler running against the file-backed
SQLite backend (`database.py::_init_sqlite`): after the ownership check
it executes only `DELETE FROM forms WHERE id = ? AND owner_id = ?`.
The SQLite schema declares no foreign keys on `questions`, `answers`
or `ai_summaries` (their `form_id` columns are plain `INTEGER NOT
NULL`), so nothing cascades: only matching form rows are removed. -/
def delete_form_sqlite (db : DB) (form_id user_id : Nat) : DeleteResult :=
  match get_owned db form_id user_id with
  | none => DeleteResult.notFound
  | some _ =>
      DeleteResult.deleted
        { db with
          forms := db.forms.filter
            (fun f => ! (f.id == form_id && f.owner_id == user_id)) }

/-- The `delete_form` POST handler running against the Postgres backend
(`database.py::_init_postgres`): the same `DELETE FROM forms` statement,
but here `questions.form_id`, `answers.form_id` and
`ai_summaries.form_id` carry `REFERENCES forms(id) ON DELETE CASCADE`,
so deleting the form row removes every child row whose `form_id` is the
deleted id. -/
def delete_form_postgres (db : DB) (form_id user_id : Nat) : DeleteResult :=
  match get_owned db form_id user_id with
  | none => DeleteResult.notFound
  | some _ =>
      DeleteResult.deleted
        { db with
          forms := db.forms.filter
            (fun f => ! (f.id == form_id && f.owner_id == user_id)),
          questions := db.questions.filter (fun q => ! (q.form_id == form_id)),
          answers := db.answers.filter (fun a => ! (a.form_id == form_id)),
          ai_summaries := db.ai_summaries.filter
            (fun s => ! (s.form_id == form_id)) }

/-- One row of the summarization query of `generate_summary`:
`SELECT q.position, q.question_text, a.answer_text, a.created_at`. -/
structure QARow where
  position : Nat
  question_text : String
  answer_text : String
  created_at : Nat
  deriving Repr, DecidableEq

/-- The `ORDER BY q.position ASC, a.created_at DESC` comparison of the
summarization query: position ascending, ties broken by creation time
descending. -/
def qa_le (r1 r2 : QARow) : Prop :=
  r1.position < r2.position ∨
    (r1.position = r2.position ∧ r2.created_at ≤ r1.created_at)

instance : DecidableRel qa_le := fun a b => by
  unfold qa_le
  infer_instance

instance : IsTotal QARow qa_le :=
  ⟨by intro a b; unfold qa_le; omega⟩

instance : IsTrans QARow qa_le :=
  ⟨by intro a b c; unfold qa_le; omega⟩

/-- The join of the summarization query before sorting:
`FROM answers a JOIN questions q ON q.id = a.question_id WHERE
a.form_id = ?` — each answer row of the form paired with its question's
position and text (answers whose question id matches no question row
are dropped by the inner join). -/
def qa_join (db : DB) (fid : Nat) : List QARow :=
  (db.answers.filter (fun a => a.form_id == fid)).filterMap (fun a =>
    (db.questions.find? (fun q => q.id == a.question_id)).map (fun q =>
      QARow.mk q.position q.question_text a.answer_text a.created_at))

/-- The full summarization query: join, then
`ORDER BY q.position ASC, a.created_at DESC`. -/
def summary_rows (db : DB) (fid : Nat) : List QARow :=
  (qa_join db fid).insertionSort qa_le

/-- One transcript line: `"Q{position}: {question_text}\n- {answer_text}"`. -/
def qa_line (r : QARow) : String :=
  "Q" ++ toString r.position ++ ": " ++ r.question_text ++ "\n- " ++
    r.answer_text

/-- `"\n\n".join(qa_lines) if qa_lines else "No answers yet."` -/
def qa_text_of (rows : List QARow) : String :=
  if rows.isEmpty then "No answers yet."
  else String.intercalate "\n\n" (rows.map qa_line)

/-- The fixed instruction block of the prompt f-string in
`generate_summary`, up to the form-specific fields. -/
def prompt_instructions : String :=
  "You are an operations style feedback analyst for a team.\n\n" ++
  "Given the following anonymous feedback answers, produce:\n" ++
  "1) Top 5 recurring themes (ranked, with brief evidence)\n" ++
  "2) Top 5 most common concrete suggestions (ranked)\n" ++
  "3) Actionable next steps (7-day plan + 30-day plan)\n" ++
  "4) Risks / red flags (if any)\n" ++
  "5) A short executive summary (5 bullet points)\n\n" ++
  "Rules:\n" ++
  "- Be specific and practical.\n" ++
  "- Don’t invent facts.\n" ++
  "- If data is thin, say so.\n" ++
  "- Within your reply, NEVER use boldings ** or * as it does not " ++
  "format properly. Keep it to plain normal text only.\n\n"

/-- The prompt built by `generate_summary`: the fixed instructions, the
form title and description, and the Q/A transcript, with the f-string's
trailing `.strip()`. -/
def build_prompt (title description qa_text : String) : String :=
  strip (prompt_instructions ++
    "FORM TITLE: " ++ title ++ "\n" ++
    "FORM DESCRIPTION: " ++ description ++ "\n\n" ++
    "FEEDBACK (Q&A):\n" ++ qa_text ++ "\n")

/-- The `send_email` helper (`app.py`).  It returns early with a logged
skip when either credential is absent, and otherwise performs the
SendGrid call — whose outcome the environment supplies as `sg` — inside
a `try/except` that turns any failure into a logged warning.  It never
raises: its result is the list of log lines it printed. -/
def send_email (sendgrid_key from_email : Option String)
    (sg : Except String Unit) : List String :=
  match sendgrid_key, from_email with
  | some _, some _ =>
      match sg with
      | Except.ok _ => []
      | Except.error e => ["SendGrid error: " ++ e]
  | _, _ => ["Email skipped: SENDGRID_API_KEY or FROM_EMAIL not set"]

/-- Outcome of the `generate_summary` POST handler: the 500 response
when the provider credential is missing, 404 when the ownership check
fails, or the redirect to the results page carrying the committed state,
the prompt sent to the provider, the stored summary text, the flash
message, and the email log lines. -/
inductive SummaryResult where
  | configError (message : String)
  | notFound
  | done (db : DB) (prompt : String) (summary_text : String)
      (flash : Option String) (email_log : List String)
  deriving Repr, DecidableEq

/-- The `generate_summary` POST handler (`app.py`): credential check,
ownership check, the summarization query, prompt assembly, one
synchronous provider call (`provider` models
`client.responses.create(...).output_text`), an INSERT appending a new
`ai_summaries` row, and finally best-effort email to the session's
login address — `send_email` never raises, so the handler's own
`try/except` always reaches the success flash when an address is
present. -/
def generate_summary (db : DB) (form_id user_id : Nat)
    (openai_key : Option String) (provider : String → String)
    (session_email : Option String) (sendgrid_key from_email : Option String)
    (sg : Except String Unit) : SummaryResult :=
  if openai_key.isNone then
    SummaryResult.configError "OPENAI_API_KEY not set on server"
  else
    match get_owned db form_id user_id with
    | none => SummaryResult.notFound
    | some form =>
        let rows := summary_rows db form_id
        let qa_text := qa_text_of rows
        let prompt := build_prompt form.title form.description qa_text
        let summary_text := provider prompt
        let row : SummaryRow := ⟨db.next_summary_id, form_id, summary_text⟩
        let db1 : DB :=
          { db with
            ai_summaries := db.ai_summaries ++ [row],
            next_summary_id := db.next_summary_id + 1 }
        match session_email with
        | none => SummaryResult.done db1 prompt summary_text none []
        | some _ =>
            let log := send_email sendgrid_key from_email sg
            SummaryResult.done db1 prompt summary_text
              (some "AI summary generated and emailed to you.") log

/-- Well-formedness of a database state: row ids are unique per table
(they are autoincrement primary keys) and form public tokens are
unique. -/
def DB.wf (db : DB) : Prop :=
  (db.forms.map FormRow.id).Nodup ∧
  (db.forms.map FormRow.public_id).Nodup ∧
  (db.questions.map QuestionRow.id).Nodup

instance (db : DB) : Decidable db.wf := by
  unfold DB.wf
  infer_instance

/-! ## Theorems -/

/-- C6: a login attempt whose email matches no registered user and a
login attempt with a registered email but a password that fails the
hash check produce the identical generic "Invalid email or password."
response; neither run establishes a session (the result is a `failure`,
which carries no user id or email). -/
theorem login_no_account_enumeration
    (chk : String → String → Bool) (db : DB) (e1 p1 e2 p2 : String)
    (u : UserRow)
    (h1 : find_user_by_email db (normalize_email e1) = none)
    (h2 : find_user_by_email db (normalize_email e2) = some u)
    (h3 : chk u.password_hash p2 = false) :
    login chk db e1 p1 = LoginResult.failure "Invalid email or password." ∧
    login chk db e2 p2 = login chk db e1 p1 := by
  simp [login, h1, h2, h3]

/-- Witness for C6: a concrete single-user database where the two
failing login runs are indistinguishable. -/
theorem login_no_account_enumeration_witness :
    login (fun h p => h == "hash:" ++ p)
        { users := [⟨1, "a@b.c", "hash:pw"⟩] } "x@y.z" "pw" =
      LoginResult.failure "Invalid email or password." ∧
    login (fun h p => h == "hash:" ++ p)
        { users := [⟨1, "a@b.c", "hash:pw"⟩] } "a@b.c" "wrong" =
      login (fun h p => h == "hash:" ++ p)
        { users := [⟨1, "a@b.c", "hash:pw"⟩] } "x@y.z" "pw" :=
  login_no_account_enumeration (fun h p => h == "hash:" ++ p)
    { users := [⟨1, "a@b.c", "hash:pw"⟩] } "x@y.z" "pw" "a@b.c" "wrong"
    ⟨1, "a@b.c", "hash:pw"⟩ (by decide) (by decide) (by decide)

/-- C9: after a successful registration, logging in with the same raw
email and the registered password establishes a session for the new
user (holding its id and the stored normalized email); logging in with
a password that the hash check rejects fails with the generic message;
and registering the same email again fails with the duplicate-email
error rather than crashing or creating a second user.  `hchk` states
the round-trip contract between the salted hash generator and the
verifier. -/
theorem register_login_roundtrip
    (gen : String → String) (chk : String → String → Bool)
    (db db2 : DB) (email pw pw2 pw3 : String)
    (hchk : ∀ a b, chk (gen a) b = (b == a))
    (hp3 : pw3 ≠ "") (hw : pw2 ≠ pw)
    (hreg : register gen db email pw = RegisterResult.success db2) :
    login chk db2 email pw =
      LoginResult.success db.next_user_id (normalize_email email) ∧
    login chk db2 email pw2 =
      LoginResult.failure "Invalid email or password." ∧
    register gen db2 email pw3 =
      RegisterResult.duplicateError "Email already registered." := by
  unfold register at hreg
  by_cases h0 : normalize_email email = "" ∨ pw = ""
  · simp only [h0, if_true] at hreg
    exact absurd hreg (by simp)
  · simp only [h0, if_false] at hreg
    by_cases h1 : (find_user_by_email db (normalize_email email)).isSome
    · simp only [h1, if_true] at hreg
      exact absurd hreg (by simp)
    · simp only [h1, if_false] at hreg
      have hdb2 :
          db2 = { db with
            users := db.users ++
              [⟨db.next_user_id, normalize_email email, gen pw⟩],
            next_user_id := db.next_user_id + 1 } := by
        cases hreg
        rfl
      have hfindnone :
          find_user_by_email db (normalize_email email) = none := by
        cases hfind : find_user_by_email db (normalize_email email)
        · rfl
        · rw [hfind] at h1
          simp at h1
      have hfind2 :
          find_user_by_email db2 (normalize_email email) =
            some ⟨db.next_user_id, normalize_email email, gen pw⟩ := by
        subst hdb2
        unfold find_user_by_email at hfindnone ⊢
        simp only [List.find?_append, hfindnone, Option.none_or,
          List.find?_cons]
        simp
      refine ⟨?_, ?_, ?_⟩
      · simp [login, hfind2, hchk]
      · simp [login, hfind2, hchk, hw]
      · unfold register
        have he : ¬ (normalize_email email = "" ∨ pw3 = "") := by
          intro hc
          rcases hc with hc | hc
          · exact h0 (Or.inl hc)
          · exact hp3 hc
        simp only [he, if_false, hfind2]
        simp

/-- Witness for C9: a concrete register/login round trip with the
identity hash generator and the matching verifier. -/
theorem register_login_roundtrip_witness :
    login (fun h b => b == h)
        { users := [⟨1, "a@b.c", "pw"⟩], next_user_id := 2 } "a@b.c" "pw" =
      LoginResult.success 1 "a@b.c" ∧
    login (fun h b => b == h)
        { users := [⟨1, "a@b.c", "pw"⟩], next_user_id := 2 } "a@b.c" "zz" =
      LoginResult.failure "Invalid email or password." ∧
    register (fun p => p)
        { users := [⟨1, "a@b.c", "pw"⟩], next_user_id := 2 } "a@b.c" "qq" =
      RegisterResult.duplicateError "Email already registered." :=
  register_login_roundtrip (fun p => p) (fun h b => b == h)
    {} { users := [⟨1, "a@b.c", "pw"⟩], next_user_id := 2 }
    "a@b.c" "pw" "zz" "qq" (fun a b => rfl) (by decide) (by decide)
    (by decide)

/-- C5: for a form owned by user A, the owner-scoped lookup under any
other user B returns no row (so results viewing, summarization and
deletion all take their 404 branch), while the same lookup under A and
the anonymous lookup by the form's public token both return the form.
Uniqueness of primary keys and of public tokens is assumed of the
database state. -/
theorem ownership_scoping
    (db : DB) (f : FormRow) (b : Nat)
    (hids : (db.forms.map FormRow.id).Nodup)
    (htoks : (db.forms.map FormRow.public_id).Nodup)
    (hf : f ∈ db.forms) (hb : b ≠ f.owner_id) :
    get_owned db f.id b = none ∧
    get_owned db f.id f.owner_id = some f ∧
    get_by_public_token db f.public_id = some f := by
  refine ⟨?_, ?_, ?_⟩
  · unfold get_owned
    rw [List.find?_eq_none]
    intro x hx hpx
    simp only [Bool.and_eq_true, beq_iff_eq] at hpx
    have hxf : x = f := List.inj_on_of_nodup_map hids hx hf hpx.1
    subst hxf
    exact hb hpx.2.symm
  · unfold get_owned
    cases hfind :
        db.forms.find? (fun x => x.id == f.id && x.owner_id == f.owner_id) with
    | none =>
        rw [List.find?_eq_none] at hfind
        exact absurd (by simp) (hfind f hf)
    | some x =>
        have hpx := List.find?_some hfind
        have hmem := List.mem_of_find?_eq_some hfind
        simp only [Bool.and_eq_true, beq_iff_eq] at hpx
        rw [List.inj_on_of_nodup_map hids hmem hf hpx.1]
  · unfold get_by_public_token
    cases hfind :
        db.forms.find? (fun x => x.public_id == f.public_id) with
    | none =>
        rw [List.find?_eq_none] at hfind
        exact absurd (by simp) (hfind f hf)
    | some x =>
        have hpx := List.find?_some hfind
        have hmem := List.mem_of_find?_eq_some hfind
        simp only [beq_iff_eq] at hpx
        rw [List.inj_on_of_nodup_map htoks hmem hf hpx]

/-- Witness for C5: user 1 owns form 1; user 2's owner-scoped lookup
misses while the public-token lookup and user 1's lookup hit. -/
theorem ownership_scoping_witness :
    get_owned { forms := [⟨1, "tok", 1, "T", ""⟩] } 1 2 = none ∧
    get_owned { forms := [⟨1, "tok", 1, "T", ""⟩] } 1 1 =
      some ⟨1, "tok", 1, "T", ""⟩ ∧
    get_by_public_token { forms := [⟨1, "tok", 1, "T", ""⟩] } "tok" =
      some ⟨1, "tok", 1, "T", ""⟩ :=
  ownership_scoping { forms := [⟨1, "tok", 1, "T", ""⟩] }
    ⟨1, "tok", 1, "T", ""⟩ 2 (by decide) (by decide) (by decide) (by decide)

/-- A concrete populated database: one user owning one form with one
question, one answer and one stored summary. -/
def db_c2 : DB :=
  { users := [⟨1, "a@b.c", "H"⟩],
    forms := [⟨1, "tok", 1, "T", "D"⟩],
    questions := [⟨1, 1, "Q?", 1⟩],
    answers := [⟨1, 1, 1, "ans", 0⟩],
    ai_summaries := [⟨1, 1, "sum"⟩],
    next_user_id := 2, next_form_id := 2, next_question_id := 2,
    next_answer_id := 2, next_summary_id := 2, clock := 1 }

/-- The state `delete_form` leaves behind on the SQLite backend when
form 1 is deleted from `db_c2`: only the form row is gone. -/
def db_c2_sqlite_after : DB :=
  { db_c2 with forms := [] }

/-- The state `delete_form` leaves behind on the Postgres backend when
form 1 is deleted from `db_c2`: the cascade empties the child tables. -/
def db_c2_postgres_after : DB :=
  { db_c2 with
      forms := [], questions := [], answers := [], ai_summaries := [] }

/-- C2 counterexample: on the file-backed SQLite backend (whose schema
in `database.py::_init_sqlite` declares no foreign keys, hence nothing
cascades), deleting form 1 by its owner removes only the form row —
the question, answer and summary rows referencing form id 1 all remain
queryable, contradicting the claim that deletion removes them on both
backends. -/
theorem delete_form_sqlite_orphans_cex :
    delete_form_sqlite db_c2 1 1 =
      DeleteResult.deleted db_c2_sqlite_after ∧
    db_c2_sqlite_after.questions.any (fun q => q.form_id == 1) = true ∧
    db_c2_sqlite_after.answers.any (fun a => a.form_id == 1) = true ∧
    db_c2_sqlite_after.ai_summaries.any
      (fun s => s.form_id == 1) = true := by decide

/-- C2 amended: after an owner-confirmed deletion, on the Postgres
backend the referential cascade leaves no form, question, answer or
summary row carrying the deleted form id; on the SQLite backend only
the form row disappears, and the question, answer and summary tables
are untouched (orphan rows for that form id remain queryable). -/
theorem delete_form_backend_behaviour
    (db : DB) (fid uid : Nat) (dbP dbS : DB)
    (hids : (db.forms.map FormRow.id).Nodup)
    (hP : delete_form_postgres db fid uid = DeleteResult.deleted dbP)
    (hS : delete_form_sqlite db fid uid = DeleteResult.deleted dbS) :
    dbP.forms.all (fun g => g.id != fid) = true ∧
    dbP.questions.all (fun q => q.form_id != fid) = true ∧
    dbP.answers.all (fun a => a.form_id != fid) = true ∧
    dbP.ai_summaries.all (fun s => s.form_id != fid) = true ∧
    dbS.questions = db.questions ∧
    dbS.answers = db.answers ∧
    dbS.ai_summaries = db.ai_summaries ∧
    dbS.forms.all (fun g => g.id != fid) = true := by
  unfold delete_form_postgres at hP
  unfold delete_form_sqlite at hS
  cases hg : get_owned db fid uid with
  | none =>
      rw [hg] at hP
      exact absurd hP (by simp)
  | some f =>
      rw [hg] at hP hS
      simp only [DeleteResult.deleted.injEq] at hP hS
      subst hP
      subst hS
      unfold get_owned at hg
      have hmemf := List.mem_of_find?_eq_some hg
      have hpf := List.find?_some hg
      simp only [Bool.and_eq_true, beq_iff_eq] at hpf
      have hforms :
          ∀ g ∈ db.forms.filter
            (fun g => ! (g.id == fid && g.owner_id == uid)),
            g.id ≠ fid := by
        intro g hgmem hgid
        rw [List.mem_filter] at hgmem
        obtain ⟨hgdb, hgpred⟩ := hgmem
        have hgf : g = f :=
          List.inj_on_of_nodup_map hids hgdb hmemf (by rw [hgid, hpf.1])
        subst hgf
        simp [hpf.1, hpf.2] at hgpred
      refine ⟨?_, ?_, ?_, ?_, rfl, rfl, rfl, ?_⟩
      · rw [List.all_eq_true]
        intro g hgmem
        simpa using hforms g hgmem
      · rw [List.all_eq_true]
        intro q hqmem
        rw [List.mem_filter] at hqmem
        simpa using hqmem.2
      · rw [List.all_eq_true]
        intro a hamem
        rw [List.mem_filter] at hamem
        simpa using hamem.2
      · rw [List.all_eq_true]
        intro s hsmem
        rw [List.mem_filter] at hsmem
        simpa using hsmem.2
      · rw [List.all_eq_true]
        intro g hgmem
        simpa using hforms g hgmem

/-- Witness for the amended C2 theorem on the concrete database
`db_c2`. -/
theorem delete_form_backend_behaviour_witness :
    db_c2_postgres_after.forms.all (fun g => g.id != 1) = true ∧
    db_c2_postgres_after.questions.all (fun q => q.form_id != 1) = true ∧
    db_c2_postgres_after.answers.all (fun a => a.form_id != 1) = true ∧
    db_c2_postgres_after.ai_summaries.all
      (fun s => s.form_id != 1) = true ∧
    db_c2_sqlite_after.questions = db_c2.questions ∧
    db_c2_sqlite_after.answers = db_c2.answers ∧
    db_c2_sqlite_after.ai_summaries = db_c2.ai_summaries ∧
    db_c2_sqlite_after.forms.all (fun g => g.id != 1) = true :=
  delete_form_backend_behaviour db_c2 1 1
    db_c2_postgres_after db_c2_sqlite_after
    (by decide) (by decide) (by decide)

/-- The bounded token loop returns `none` exactly when every one of its
`fuel` attempts hits a colliding token. -/
theorem try_insert_form_none_iff (db : DB) (gen : Nat → String) :
    ∀ (fuel i : Nat), try_insert_form db gen fuel i = none ↔
      ∀ j, i ≤ j → j < i + fuel → token_collides db (gen j) = true := by
  intro fuel
  induction fuel with
  | zero =>
      intro i
      constructor
      · intro _ j h1 h2
        omega
      · intro _
        rfl
  | succ fuel ih =>
      intro i
      unfold try_insert_form
      cases h : token_collides db (gen i) with
      | false =>
          simp only [Bool.false_eq_true, if_false]
          constructor
          · intro hc
            exact absurd hc (by simp)
          · intro hall
            have := hall i (le_refl i) (by omega)
            rw [h] at this
            exact absurd this (by simp)
      | true =>
          simp only [if_true]
          rw [ih (i + 1)]
          constructor
          · intro hall j h1 h2
            rcases Nat.eq_or_lt_of_le h1 with he | hlt
            · rw [← he]
              exact h
            · exact hall j hlt (by omega)
          · intro hall j h1 h2
            exact hall j (by omega) (by omega)

/-- When the bounded token loop returns attempt index `k`, that attempt
is within the fuel bound, its token does not collide, and every earlier
attempt's token collided. -/
theorem try_insert_form_some_spec (db : DB) (gen : Nat → String) :
    ∀ (fuel i k : Nat), try_insert_form db gen fuel i = some k →
      i ≤ k ∧ k < i + fuel ∧ token_collides db (gen k) = false ∧
      (List.range' i (k - i)).all
        (fun j => token_collides db (gen j)) = true := by
  intro fuel
  induction fuel with
  | zero =>
      intro i k hc
      exact absurd hc (by simp [try_insert_form])
  | succ fuel ih =>
      intro i k
      unfold try_insert_form
      cases h : token_collides db (gen i) with
      | false =>
          simp only [Bool.false_eq_true, if_false, Option.some.injEq]
          intro hik
          subst hik
          refine ⟨le_refl i, by omega, h, ?_⟩
          simp [Nat.sub_self]
      | true =>
          simp only [if_true]
          intro hrec
          obtain ⟨h1, h2, h3, h4⟩ := ih (i + 1) k hrec
          refine ⟨by omega, by omega, h3, ?_⟩
          have hk : k - i = (k - (i + 1)) + 1 := by omega
          rw [hk, List.range'_succ, List.all_cons, h4, h]
          rfl

/-- C3: with a valid title and at least one non-blank question, form
creation retries token generation up to the fixed bound of 10 attempts:
it raises (token exhaustion — a result carrying no new state, since the
connection closes without commit) exactly when the first 10 generated
tokens all collide with existing forms; and whenever the loop instead
succeeds at some attempt `k`, that attempt lies under the bound, every
earlier token collided, the chosen token is collision-free, and the
form is created with that token and the next autoincrement form id. -/
theorem create_form_token_retry
    (db : DB) (owner_id : Nat) (title description : String)
    (raw_questions : List String) (gen : Nat → String) (k : Nat)
    (ht : strip title ≠ "")
    (hq : ((raw_questions.map strip).filter (fun q => q ≠ "")) ≠ []) :
    (create_form db owner_id title description raw_questions gen =
        CreateFormResult.tokenExhausted ↔
      (List.range 10).all (fun j => token_collides db (gen j)) = true) ∧
    (try_insert_form db gen 10 0 = some k →
      k < 10 ∧
      (List.range k).all (fun j => token_collides db (gen j)) = true ∧
      token_collides db (gen k) = false ∧
      create_form db owner_id title description raw_questions gen =
        CreateFormResult.success
          { db with
            forms := db.forms ++ [⟨db.next_form_id, gen k, owner_id,
              strip title, strip description⟩],
            questions := db.questions ++
              ((raw_questions.map strip).filter
                (fun q => q ≠ "")).enum.map
                (fun p => QuestionRow.mk (db.next_question_id + p.1)
                  db.next_form_id p.2 (p.1 + 1)),
            next_form_id := db.next_form_id + 1,
            next_question_id := db.next_question_id +
              (((raw_questions.map strip).filter
                (fun q => q ≠ "")).enum.map
                (fun p => QuestionRow.mk (db.next_question_id + p.1)
                  db.next_form_id p.2 (p.1 + 1))).length }
          db.next_form_id (gen k)) := by
  have hlen :
      ¬ ((raw_questions.map strip).filter (fun q => q ≠ "")).length < 1 := by
    have := List.length_pos.mpr hq
    omega
  constructor
  · constructor
    · intro hc
      unfold create_form at hc
      simp only [if_neg ht, if_neg hlen] at hc
      cases htry : try_insert_form db gen 10 0 with
      | none =>
          have hall := (try_insert_form_none_iff db gen 10 0).mp htry
          rw [List.all_eq_true]
          intro j hj
          rw [List.mem_range] at hj
          exact hall j (Nat.zero_le j) (by omega)
      | some m =>
          rw [htry] at hc
          exact absurd hc (by simp)
    · intro hall
      have hnone : try_insert_form db gen 10 0 = none := by
        rw [try_insert_form_none_iff]
        intro j hj1 hj2
        rw [List.all_eq_true] at hall
        have := hall j (by rw [List.mem_range]; omega)
        simpa using this
      unfold create_form
      simp only [if_neg ht, if_neg hlen, hnone]
  · intro hk
    obtain ⟨h1, h2, h3, h4⟩ := try_insert_form_some_spec db gen 10 0 k hk
    have hrange : (List.range k).all
        (fun j => token_collides db (gen j)) = true := by
      rw [List.range_eq_range']
      simpa using h4
    refine ⟨by omega, hrange, h3, ?_⟩
    unfold create_form
    simp only [if_neg ht, if_neg hlen, hk]

/-- A database already holding forms with tokens "tok0" and "tok1",
so that the first two generated tokens of `gen_c3` collide. -/
def db_c3 : DB :=
  { forms := [⟨1, "tok0", 1, "A", ""⟩, ⟨2, "tok1", 1, "B", ""⟩],
    next_form_id := 3 }

/-- A deterministic token generator whose i-th token is `"tok" ++ i`. -/
def gen_c3 : Nat → String := fun i => "tok" ++ toString i

/-- Witness for C3: on `db_c3` the first two token attempts collide and
the loop succeeds at attempt 2, well under the bound of 10, so creation
does not raise and the form carries the third generated token. -/
theorem create_form_token_retry_witness :
    (create_form db_c3 1 "T" "" ["q"] gen_c3 =
        CreateFormResult.tokenExhausted ↔
      (List.range 10).all (fun j => token_collides db_c3 (gen_c3 j)) =
        true) ∧
    (try_insert_form db_c3 gen_c3 10 0 = some 2 →
      2 < 10 ∧
      (List.range 2).all (fun j => token_collides db_c3 (gen_c3 j)) =
        true ∧
      token_collides db_c3 (gen_c3 2) = false ∧
      create_form db_c3 1 "T" "" ["q"] gen_c3 =
        CreateFormResult.success
          { db_c3 with
            forms := db_c3.forms ++ [⟨db_c3.next_form_id, gen_c3 2, 1,
              strip "T", strip ""⟩],
            questions := db_c3.questions ++
              ((["q"].map strip).filter (fun q => q ≠ "")).enum.map
                (fun p => QuestionRow.mk (db_c3.next_question_id + p.1)
                  db_c3.next_form_id p.2 (p.1 + 1)),
            next_form_id := db_c3.next_form_id + 1,
            next_question_id := db_c3.next_question_id +
              (((["q"].map strip).filter (fun q => q ≠ "")).enum.map
                (fun p => QuestionRow.mk (db_c3.next_question_id + p.1)
                  db_c3.next_form_id p.2 (p.1 + 1))).length }
          db_c3.next_form_id (gen_c3 2)) :=
  create_form_token_retry db_c3 1 "T" "" ["q"] gen_c3 2
    (by decide) (by decide)

/-- The texts of the question rows built by `create_form` are the kept
texts, in order. -/
theorem enum_map_question_text (qs : List String) (nid fid : Nat) :
    (qs.enum.map (fun p =>
      QuestionRow.mk (nid + p.1) fid p.2 (p.1 + 1))).map
      QuestionRow.question_text = qs := by
  rw [List.map_map]
  have h : (QuestionRow.question_text ∘ fun p : Nat × String =>
      QuestionRow.mk (nid + p.1) fid p.2 (p.1 + 1)) = Prod.snd := rfl
  rw [h, List.enum_map_snd]

/-- The positions of the question rows built by `create_form` are
exactly 1..N. -/
theorem enum_map_position (qs : List String) (nid fid : Nat) :
    (qs.enum.map (fun p =>
      QuestionRow.mk (nid + p.1) fid p.2 (p.1 + 1))).map
      QuestionRow.position = List.range' 1 qs.length := by
  rw [List.map_map, List.range'_eq_map_range]
  have h : (QuestionRow.position ∘ fun p : Nat × String =>
      QuestionRow.mk (nid + p.1) fid p.2 (p.1 + 1)) =
      (fun n => n + 1) ∘ Prod.fst := rfl
  rw [h, ← List.map_map, List.enum_map_fst]
  simp [Nat.add_comm]

/-- C1: whenever `create_form` succeeds (valid input, token loop found
a free token), the committed state extends the old one with exactly one
form row — carrying the next autoincrement id and a public token that
collides with no existing form — and with N question rows appended in
submitted order, whose texts are the trimmed non-blank submitted texts
and whose 1-based positions are exactly 1..N; token uniqueness of the
form table is preserved, and no other table is touched (the form and
question inserts commit in the same transaction). -/
theorem create_form_valid_spec
    (db : DB) (owner_id : Nat) (title description : String)
    (raw_questions : List String) (gen : Nat → String)
    (db2 : DB) (fid : Nat) (pid : String)
    (hsucc : create_form db owner_id title description raw_questions gen =
      CreateFormResult.success db2 fid pid) :
    fid = db.next_form_id ∧
    token_collides db pid = false ∧
    db2.forms = db.forms ++
      [⟨db.next_form_id, pid, owner_id, strip title, strip description⟩] ∧
    db2.questions.take db.questions.length = db.questions ∧
    (db2.questions.drop db.questions.length).map QuestionRow.question_text =
      (raw_questions.map strip).filter (fun q => q ≠ "") ∧
    (db2.questions.drop db.questions.length).map QuestionRow.position =
      List.range' 1
        ((raw_questions.map strip).filter (fun q => q ≠ "")).length ∧
    (db2.questions.drop db.questions.length).all
      (fun q => q.form_id == fid) = true ∧
    ((db.forms.map FormRow.public_id).Nodup →
      (db2.forms.map FormRow.public_id).Nodup) ∧
    db2.users = db.users ∧ db2.answers = db.answers ∧
    db2.ai_summaries = db.ai_summaries := by
  unfold create_form at hsucc
  by_cases h0 : strip title = ""
  · simp only [h0, if_true] at hsucc
    exact absurd hsucc (by simp)
  · simp only [h0, if_false] at hsucc
    by_cases h1 :
        ((raw_questions.map strip).filter (fun q => q ≠ "")).length < 1
    · simp only [if_pos h1] at hsucc
      exact absurd hsucc (by simp)
    · simp only [if_neg h1] at hsucc
      cases htry : try_insert_form db gen 10 0 with
      | none =>
          rw [htry] at hsucc
          exact absurd hsucc (by simp)
      | some k =>
          rw [htry] at hsucc
          simp only [CreateFormResult.success.injEq] at hsucc
          obtain ⟨hdb2, hfid, hpid⟩ := hsucc
          subst hdb2
          subst hfid
          subst hpid
          obtain ⟨-, -, hfresh, -⟩ :=
            try_insert_form_some_spec db gen 10 0 k htry
          refine ⟨rfl, hfresh, rfl, ?_, ?_, ?_, ?_, ?_, rfl, rfl, rfl⟩
          · exact List.take_left _ _
          · rw [List.drop_left]
            exact enum_map_question_text _ _ _
          · rw [List.drop_left]
            exact enum_map_position _ _ _
          · rw [List.drop_left, List.all_eq_true]
            intro q hq
            rw [List.mem_map] at hq
            obtain ⟨p, -, hpq⟩ := hq
            rw [← hpq]
            simp
          · intro hnodup
            rw [List.map_append, List.nodup_append]
            refine ⟨hnodup, by simp, ?_⟩
            intro a ha hb
            unfold token_collides at hfresh
            rw [List.any_eq_false] at hfresh
            rw [List.mem_map] at ha
            obtain ⟨g, hg, hga⟩ := ha
            have := hfresh g hg
            simp only [List.map_cons, List.map_nil, List.mem_cons,
              List.not_mem_nil, or_false] at hb
            rw [hb] at hga
            rw [← hga] at this
            simp at this

/-- The state after the C1 witness run of `create_form` on an empty
database. -/
def db_c1_after : DB :=
  { forms := [⟨1, "tok0", 7, "Sprint Retro", "d"⟩],
    questions := [⟨1, 1, "What went well?", 1⟩,
      ⟨2, 1, "What to improve?", 2⟩],
    next_form_id := 2,
    next_question_id := 3 }

/-- Witness for C1: creating " Sprint Retro " with one blank and two
non-blank questions on an empty database yields positions 1 and 2 in
submitted order and a fresh token. -/
theorem create_form_valid_spec_witness :
    1 = DB.next_form_id {} ∧
    token_collides {} "tok0" = false ∧
    db_c1_after.forms = ({} : DB).forms ++
      [⟨DB.next_form_id {}, "tok0", 7, strip " Sprint Retro ",
        strip "d"⟩] ∧
    db_c1_after.questions.take ({} : DB).questions.length =
      ({} : DB).questions ∧
    (db_c1_after.questions.drop ({} : DB).questions.length).map
      QuestionRow.question_text =
      ([" What went well? ", "  ", "What to improve?"].map strip).filter
        (fun q => q ≠ "") ∧
    (db_c1_after.questions.drop ({} : DB).questions.length).map
      QuestionRow.position =
      List.range' 1
        (([" What went well? ", "  ", "What to improve?"].map
          strip).filter (fun q => q ≠ "")).length ∧
    (db_c1_after.questions.drop ({} : DB).questions.length).all
      (fun q => q.form_id == 1) = true ∧
    ((({} : DB).forms.map FormRow.public_id).Nodup →
      (db_c1_after.forms.map FormRow.public_id).Nodup) ∧
    db_c1_after.users = ({} : DB).users ∧
    db_c1_after.answers = ({} : DB).answers ∧
    db_c1_after.ai_summaries = ({} : DB).ai_summaries :=
  create_form_valid_spec {} 7 " Sprint Retro " "d"
    [" What went well? ", "  ", "What to improve?"] gen_c3
    db_c1_after 1 "tok0" (by decide)

/-- Behaviour of the answer-insertion loop of `form_page`: the final
answer table is the old one with the inserted rows appended, the
inserted rows are in bijection (id and text) with the questions whose
trimmed submitted value is non-blank, every inserted row carries the
handled form id and the id of one of the handled questions, and no
other table changes. -/
theorem insert_answers_spec (fid : Nat) (req : List (String × String)) :
    ∀ (qs : List QuestionRow) (db : DB),
      (insert_answers fid req qs db).1.answers =
        db.answers ++ (insert_answers fid req qs db).2 ∧
      (insert_answers fid req qs db).2.map
        (fun r => (r.question_id, r.answer_text)) =
        qs.filterMap (fun q =>
          if form_answer_value req q.id = "" then none
          else some (q.id, form_answer_value req q.id)) ∧
      (insert_answers fid req qs db).2.all
        (fun r => r.form_id == fid) = true ∧
      (insert_answers fid req qs db).2.all
        (fun r => qs.any (fun q => q.id == r.question_id)) = true ∧
      (insert_answers fid req qs db).1.users = db.users ∧
      (insert_answers fid req qs db).1.forms = db.forms ∧
      (insert_answers fid req qs db).1.questions = db.questions ∧
      (insert_answers fid req qs db).1.ai_summaries = db.ai_summaries := by
  intro qs
  induction qs with
  | nil =>
      intro db
      refine ⟨by simp [insert_answers], by simp [insert_answers],
        by simp [insert_answers], by simp [insert_answers],
        rfl, rfl, rfl, rfl⟩
  | cons q qs ih =>
      intro db
      simp only [insert_answers]
      by_cases h : form_answer_value req q.id = ""
      · rw [if_pos h]
        obtain ⟨i1, i2, i3, i4, i5, i6, i7, i8⟩ := ih db
        refine ⟨i1, ?_, i3, ?_, i5, i6, i7, i8⟩
        · rw [i2, List.filterMap_cons, if_pos h]
        · rw [List.all_eq_true] at i4 ⊢
          intro r hr
          rw [List.any_cons, i4 r hr]
          simp
      · rw [if_neg h]
        obtain ⟨i1, i2, i3, i4, i5, i6, i7, i8⟩ := ih
          { db with
            answers := db.answers ++
              [⟨db.next_answer_id, fid, q.id,
                form_answer_value req q.id, db.clock⟩],
            next_answer_id := db.next_answer_id + 1,
            clock := db.clock + 1 }
        refine ⟨?_, ?_, ?_, ?_, i5, i6, i7, i8⟩
        · rw [i1]
          simp
        · rw [List.map_cons, i2, List.filterMap_cons, if_neg h]
        · simp only [List.all_cons, Bool.and_eq_true]
          exact ⟨by simp, i3⟩
        · simp only [List.all_cons, Bool.and_eq_true]
          constructor
          · rw [List.any_cons]
            simp
          · rw [List.all_eq_true] at i4 ⊢
            intro r hr
            rw [List.any_cons, i4 r hr]
            simp

/-- C4: submitting to a known public token always reaches the thank-you
page (even when no answer is non-blank); the committed answer table is
the old one plus exactly one row per question of the form whose trimmed
submitted value is non-blank, linked to that question's id and carrying
the trimmed text, in position order; blank or missing answers are
skipped without error; and no other table changes (one commit for the
whole batch). -/
theorem submit_answers_spec
    (db : DB) (token : String) (req : List (String × String))
    (form : FormRow)
    (hf : get_by_public_token db token = some form) :
    form_page_post db token req =
      SubmitResult.thankYou
        (insert_answers form.id req (questions_of_form db form.id) db).1
        (insert_answers form.id req (questions_of_form db form.id) db).2
        form ∧
    (insert_answers form.id req (questions_of_form db form.id) db).1.answers
      = db.answers ++
        (insert_answers form.id req (questions_of_form db form.id) db).2 ∧
    (insert_answers form.id req
        (questions_of_form db form.id) db).2.map
      (fun r => (r.question_id, r.answer_text)) =
      (questions_of_form db form.id).filterMap (fun q =>
        if form_answer_value req q.id = "" then none
        else some (q.id, form_answer_value req q.id)) ∧
    (insert_answers form.id req
        (questions_of_form db form.id) db).2.all
      (fun r => r.form_id == form.id) = true ∧
    (insert_answers form.id req
        (questions_of_form db form.id) db).1.users = db.users ∧
    (insert_answers form.id req
        (questions_of_form db form.id) db).1.forms = db.forms ∧
    (insert_answers form.id req
        (questions_of_form db form.id) db).1.questions = db.questions ∧
    (insert_answers form.id req
        (questions_of_form db form.id) db).1.ai_summaries =
      db.ai_summaries := by
  obtain ⟨i1, i2, i3, -, i5, i6, i7, i8⟩ :=
    insert_answers_spec form.id req (questions_of_form db form.id) db
  refine ⟨?_, i1, i2, i3, i5, i6, i7, i8⟩
  unfold form_page_post
  rw [hf]

/-- Witness for C4: the spec's scenario — two questions, one answered
"Good pairing" (with surrounding blanks), one blank, plus a junk field;
exactly the non-blank answer is persisted and the thank-you page is
reached. -/
theorem submit_answers_spec_witness :
    form_page_post db_c1_after "tok0"
        [("q_1", "  Good pairing "), ("q_2", " "), ("junk", "x")] =
      SubmitResult.thankYou
        (insert_answers 1
          [("q_1", "  Good pairing "), ("q_2", " "), ("junk", "x")]
          (questions_of_form db_c1_after 1) db_c1_after).1
        (insert_answers 1
          [("q_1", "  Good pairing "), ("q_2", " "), ("junk", "x")]
          (questions_of_form db_c1_after 1) db_c1_after).2
        ⟨1, "tok0", 7, "Sprint Retro", "d"⟩ ∧
    (insert_answers 1
        [("q_1", "  Good pairing "), ("q_2", " "), ("junk", "x")]
        (questions_of_form db_c1_after 1) db_c1_after).1.answers =
      db_c1_after.answers ++
        (insert_answers 1
          [("q_1", "  Good pairing "), ("q_2", " "), ("junk", "x")]
          (questions_of_form db_c1_after 1) db_c1_after).2 ∧
    (insert_answers 1
        [("q_1", "  Good pairing "), ("q_2", " "), ("junk", "x")]
        (questions_of_form db_c1_after 1) db_c1_after).2.map
      (fun r => (r.question_id, r.answer_text)) =
      (questions_of_form db_c1_after 1).filterMap (fun q =>
        if form_answer_value
            [("q_1", "  Good pairing "), ("q_2", " "), ("junk", "x")]
            q.id = "" then none
        else some (q.id, form_answer_value
          [("q_1", "  Good pairing "), ("q_2", " "), ("junk", "x")]
          q.id)) ∧
    (insert_answers 1
        [("q_1", "  Good pairing "), ("q_2", " "), ("junk", "x")]
        (questions_of_form db_c1_after 1) db_c1_after).2.all
      (fun r => r.form_id == 1) = true ∧
    (insert_answers 1
        [("q_1", "  Good pairing "), ("q_2", " "), ("junk", "x")]
        (questions_of_form db_c1_after 1) db_c1_after).1.users =
      db_c1_after.users ∧
    (insert_answers 1
        [("q_1", "  Good pairing "), ("q_2", " "), ("junk", "x")]
        (questions_of_form db_c1_after 1) db_c1_after).1.forms =
      db_c1_after.forms ∧
    (insert_answers 1
        [("q_1", "  Good pairing "), ("q_2", " "), ("junk", "x")]
        (questions_of_form db_c1_after 1) db_c1_after).1.questions =
      db_c1_after.questions ∧
    (insert_answers 1
        [("q_1", "  Good pairing "), ("q_2", " "), ("junk", "x")]
        (questions_of_form db_c1_after 1) db_c1_after).1.ai_summaries =
      db_c1_after.ai_summaries :=
  submit_answers_spec db_c1_after "tok0"
    [("q_1", "  Good pairing "), ("q_2", " "), ("junk", "x")]
    ⟨1, "tok0", 7, "Sprint Retro", "d"⟩ (by decide)

/-- C10: whatever field names the request contains, every answer row a
successful anonymous submission adds is stamped with the id of the form
resolved from the submitted token and with the id of one of that form's
own question rows — the handler only reads fields keyed by those
question ids, so no answer can attach to another form's question. -/
theorem submit_scoped_to_forms_questions
    (db : DB) (token : String) (req : List (String × String))
    (form : FormRow) (db2 : DB) (rows : List AnswerRow)
    (hs : form_page_post db token req =
      SubmitResult.thankYou db2 rows form) :
    get_by_public_token db token = some form ∧
    db2.answers = db.answers ++ rows ∧
    rows.all (fun r => r.form_id == form.id &&
      (db.questions.filter (fun q => q.form_id == form.id)).any
        (fun q => q.id == r.question_id)) = true := by
  unfold form_page_post at hs
  cases hf : get_by_public_token db token with
  | none =>
      rw [hf] at hs
      exact absurd hs (by simp)
  | some f =>
      rw [hf] at hs
      simp only [SubmitResult.thankYou.injEq] at hs
      obtain ⟨hdb2, hrows, hform⟩ := hs
      subst hform
      subst hdb2
      subst hrows
      obtain ⟨i1, -, i3, i4, -, -, -, -⟩ :=
        insert_answers_spec f.id req (questions_of_form db f.id) db
      refine ⟨rfl, i1, ?_⟩
      rw [List.all_eq_true] at i3 i4 ⊢
      intro r hr
      rw [Bool.and_eq_true]
      refine ⟨i3 r hr, ?_⟩
      have h4 := i4 r hr
      rw [List.any_eq_true] at h4 ⊢
      obtain ⟨qq, hq1, hq2⟩ := h4
      unfold questions_of_form at hq1
      exact ⟨qq, (List.perm_insertionSort position_le _).subset hq1, hq2⟩

/-- Witness for C10: a submission to `db_c1_after` that answers
question 2 and also smuggles a field for a question id that does not
belong to the form; the single inserted row targets the form's own
question 2. -/
theorem submit_scoped_to_forms_questions_witness :
    get_by_public_token db_c1_after "tok0" =
      some ⟨1, "tok0", 7, "Sprint Retro", "d"⟩ ∧
    ({ db_c1_after with
        answers := [⟨1, 1, 2, "late!", 0⟩],
        next_answer_id := 2,
        clock := 1 } : DB).answers =
      db_c1_after.answers ++ [⟨1, 1, 2, "late!", 0⟩] ∧
    ([⟨1, 1, 2, "late!", 0⟩] : List AnswerRow).all
      (fun r => r.form_id == (1 : Nat) &&
        (db_c1_after.questions.filter (fun q => q.form_id == 1)).any
          (fun q => q.id == r.question_id)) = true :=
  submit_scoped_to_forms_questions db_c1_after "tok0"
    [("q_2", "late!"), ("q_999", "evil")]
    ⟨1, "tok0", 7, "Sprint Retro", "d"⟩
    { db_c1_after with
      answers := [⟨1, 1, 2, "late!", 0⟩],
      next_answer_id := 2,
      clock := 1 }
    [⟨1, 1, 2, "late!", 0⟩] (by decide)

/-- The prompt a summarization run sent to the provider, when the run
completed. -/
def SummaryResult.prompt_of : SummaryResult → Option String
  | SummaryResult.done _ p _ _ _ => some p
  | _ => none

/-- The summary text a summarization run stored, when the run
completed. -/
def SummaryResult.summary_of : SummaryResult → Option String
  | SummaryResult.done _ _ s _ _ => some s
  | _ => none

/-- C7: the Q/A transcript rows of `generate_summary` are the join of
the form's answers with their question text, ordered by question
position ascending and creation time descending; and when the form has
no answer rows at all, the prompt handed to the provider contains the
explicit "No answers yet." placeholder in place of the transcript, and
the provider is still invoked on exactly that prompt (its output
becomes the stored summary text). -/
theorem generate_summary_transcript
    (db : DB) (form_id user_id : Nat) (key : String)
    (provider : String → String) (session_email : Option String)
    (sk fe : Option String) (sg : Except String Unit) (form : FormRow)
    (hform : get_owned db form_id user_id = some form) :
    List.Sorted qa_le (summary_rows db form_id) ∧
    (summary_rows db form_id).Perm (qa_join db form_id) ∧
    (db.answers.filter (fun a => a.form_id == form_id) = [] →
      (generate_summary db form_id user_id (some key) provider
          session_email sk fe sg).prompt_of =
        some (build_prompt form.title form.description
          "No answers yet.") ∧
      (generate_summary db form_id user_id (some key) provider
          session_email sk fe sg).summary_of =
        some (provider (build_prompt form.title form.description
          "No answers yet."))) := by
  refine ⟨List.sorted_insertionSort qa_le _,
    List.perm_insertionSort qa_le _, ?_⟩
  intro hempty
  have hrows : summary_rows db form_id = [] := by
    unfold summary_rows qa_join
    rw [hempty]
    rfl
  have hqa : qa_text_of (summary_rows db form_id) = "No answers yet." := by
    rw [hrows]
    rfl
  unfold generate_summary
  simp only [Option.isNone_some, Bool.false_eq_true, if_false, hform,
    hqa]
  cases session_email with
  | none => exact ⟨rfl, rfl⟩
  | some mail => exact ⟨rfl, rfl⟩

/-- Witness for C7 on `db_c1_after`, whose form 1 has two questions and
no answers. -/
theorem generate_summary_transcript_witness :
    List.Sorted qa_le (summary_rows db_c1_after 1) ∧
    (summary_rows db_c1_after 1).Perm (qa_join db_c1_after 1) ∧
    (db_c1_after.answers.filter (fun a => a.form_id == 1) = [] →
      (generate_summary db_c1_after 1 7 (some "k")
          (fun _ => "SUMMARY") none none none
          (Except.ok ())).prompt_of =
        some (build_prompt "Sprint Retro" "d" "No answers yet.") ∧
      (generate_summary db_c1_after 1 7 (some "k")
          (fun _ => "SUMMARY") none none none
          (Except.ok ())).summary_of =
        some ((fun _ => "SUMMARY")
          (build_prompt "Sprint Retro" "d" "No answers yet."))) :=
  generate_summary_transcript db_c1_after 1 7 "k" (fun _ => "SUMMARY")
    none none none (Except.ok ()) ⟨1, "tok0", 7, "Sprint Retro", "d"⟩
    (by decide)

/-- C8: on a run whose email step fails (`Except.error e`), the handler
still completes normally with the redirect-carrying result: the
provider's output is appended to the summary table as a brand-new row
(all earlier rows kept, never overwritten), and the email failure is
downgraded to the logged SendGrid warning inside `send_email` — it
neither propagates out of the request nor removes the stored row. -/
theorem summary_append_email_best_effort
    (db : DB) (form_id user_id : Nat) (key : String)
    (provider : String → String) (mail k1 f1 e : String)
    (form : FormRow)
    (hform : get_owned db form_id user_id = some form) :
    generate_summary db form_id user_id (some key) provider (some mail)
        (some k1) (some f1) (Except.error e) =
      SummaryResult.done
        { db with
          ai_summaries := db.ai_summaries ++
            [⟨db.next_summary_id, form_id,
              provider (build_prompt form.title form.description
                (qa_text_of (summary_rows db form_id)))⟩],
          next_summary_id := db.next_summary_id + 1 }
        (build_prompt form.title form.description
          (qa_text_of (summary_rows db form_id)))
        (provider (build_prompt form.title form.description
          (qa_text_of (summary_rows db form_id))))
        (some "AI summary generated and emailed to you.")
        ["SendGrid error: " ++ e] := by
  unfold generate_summary
  simp only [Option.isNone_some, Bool.false_eq_true, if_false, hform]
  rfl

/-- Witness for C8 on `db_c2`, which already stores one summary row:
the failing-email run appends a second row and logs the warning. -/
theorem summary_append_email_best_effort_witness :
    generate_summary db_c2 1 1 (some "k") (fun _ => "S2") (some "a@b.c")
        (some "sgk") (some "from@b.c") (Except.error "boom") =
      SummaryResult.done
        { db_c2 with
          ai_summaries := db_c2.ai_summaries ++
            [⟨2, 1, (fun _ => "S2")
              (build_prompt "T" "D" (qa_text_of (summary_rows db_c2 1)))⟩],
          next_summary_id := 3 }
        (build_prompt "T" "D" (qa_text_of (summary_rows db_c2 1)))
        ((fun _ => "S2")
          (build_prompt "T" "D" (qa_text_of (summary_rows db_c2 1))))
        (some "AI summary generated and emailed to you.")
        ["SendGrid error: " ++ "boom"] :=
  summary_append_email_best_effort db_c2 1 1 "k" (fun _ => "S2")
    "a@b.c" "sgk" "from@b.c" "boom" ⟨1, "tok", 1, "T", "D"⟩ (by decide)

end ContinuousCo
